import Mathlib

/-!
Verification of the KrakenStreamer data-refresh and fan-out pipeline.

This file gives a shallow embedding of the backend pipeline:
the record schemas (shared/schema.ts), the in-memory snapshot store
(server/storage.ts, `MemStorage`), the upstream client
(server/services/kraken-api.ts, `KrakenApiService`) and the request /
broadcast handlers (server/routes.ts).  Prices and other JS numbers are
modelled as rationals; JS `Map` objects as association lists with
insertion-order-preserving replacement; fallible async calls as
`Except String`; the contents of upstream HTTP responses are passed to
the embedded functions as explicit arguments.
-/

set_option autoImplicit false

namespace KrakenStreamer

/-! ## Data model (shared/schema.ts) -/

/-- `tickerDataSchema`: the normalized per-pair ticker record. -/
structure TickerData where
  pair : String
  name : String
  lastPrice : ℚ
  change24h : ℚ
  changePercent24h : ℚ
  volume24h : ℚ
  high24h : ℚ
  low24h : ℚ
  bid : ℚ
  ask : ℚ
  spread : ℚ
  spreadPercent : ℚ
deriving DecidableEq

/-- `orderBookEntrySchema`: one price level of an order book. -/
structure OrderBookEntry where
  price : ℚ
  volume : ℚ
  timestamp : ℚ
deriving DecidableEq

/-- `orderBookSchema`: the normalized order-book record. -/
structure OrderBook where
  pair : String
  asks : List OrderBookEntry
  bids : List OrderBookEntry
  spread : ℚ
  spreadPercent : ℚ
deriving DecidableEq

/-- The `side` field of `tradeSchema` (`z.enum(['buy', 'sell'])`). -/
inductive TradeSide where
  | buy
  | sell
deriving DecidableEq

/-- `tradeSchema`: a single trade. -/
structure Trade where
  price : ℚ
  volume : ℚ
  time : ℚ
  side : TradeSide
deriving DecidableEq

/-- `recentTradesSchema`: the trade-history record for one pair. -/
structure RecentTrades where
  pair : String
  trades : List Trade
deriving DecidableEq

/-- `marketDataSchema`: the batch-ticker record.  Note that, unlike
`tickerDataSchema`, it carries no `spread` or `spreadPercent` field. -/
structure MarketData where
  pair : String
  name : String
  lastPrice : ℚ
  change24h : ℚ
  changePercent24h : ℚ
  volume24h : ℚ
  high24h : ℚ
  low24h : ℚ
  bid : ℚ
  ask : ℚ
deriving DecidableEq

/-- The field names of `marketDataSchema` in shared/schema.ts, in source
order.  The zod object schema is determined by its named fields, so the
schema is embedded as this list of field names. -/
def marketDataSchemaFields : List String :=
  ["pair", "name", "lastPrice", "change24h", "changePercent24h",
   "volume24h", "high24h", "low24h", "bid", "ask"]

/-- The field names of `tickerDataSchema` in shared/schema.ts, in source
order. -/
def tickerDataSchemaFields : List String :=
  ["pair", "name", "lastPrice", "change24h", "changePercent24h",
   "volume24h", "high24h", "low24h", "bid", "ask", "spread", "spreadPercent"]

/-- `krakenApiErrorSchema`: the upstream response envelope
(`error : z.array(z.string())`, `result : z.any().optional()`), with the
payload type made explicit. -/
structure KrakenEnvelope (α : Type) where
  error : List String
  result : Option α
deriving DecidableEq

/-! ## JS `Map` emulation

`MemStorage` keeps its per-pair records in JS `Map`s.  A `Map` is
embedded as an association list in insertion order: `set` replaces an
existing key in place, `get` returns the stored value or `undefined`
(`none`). -/

/-- JS `map.set(k, v)`: replace in place if the key is present,
otherwise append. -/
def mapSet {α : Type} : List (String × α) → String → α → List (String × α)
  | [], k, v => [(k, v)]
  | (k', v') :: rest, k, v =>
    if k' = k then (k, v) :: rest else (k', v') :: mapSet rest k v

/-- JS `map.get(k)`: the stored value, or `undefined` (`none`). -/
def mapGet {α : Type} : List (String × α) → String → Option α
  | [], _ => none
  | (k', v') :: rest, k => if k' = k then some v' else mapGet rest k

/-! ## Snapshot Store (server/storage.ts, `MemStorage`) -/

/-- The state of `MemStorage`: three per-pair maps, the latest bulk
market-data list, and the last-updated timestamp (a `Date`, embedded as
a natural-number timestamp; `undefined` as `none`). -/
structure MemStorage where
  tickerData : List (String × TickerData)
  orderBooks : List (String × OrderBook)
  recentTrades : List (String × RecentTrades)
  marketData : List MarketData
  lastUpdated : Option ℕ
deriving DecidableEq

namespace MemStorage

/-- The freshly constructed store (`new MemStorage()`). -/
def init : MemStorage :=
  { tickerData := [], orderBooks := [], recentTrades := [],
    marketData := [], lastUpdated := none }

def setTickerData (s : MemStorage) (pair : String) (data : TickerData) : MemStorage :=
  { s with tickerData := mapSet s.tickerData pair data }

def getTickerData (s : MemStorage) (pair : String) : Option TickerData :=
  mapGet s.tickerData pair

def getAllTickerData (s : MemStorage) : List TickerData :=
  s.tickerData.map Prod.snd

def setOrderBook (s : MemStorage) (pair : String) (data : OrderBook) : MemStorage :=
  { s with orderBooks := mapSet s.orderBooks pair data }

def getOrderBook (s : MemStorage) (pair : String) : Option OrderBook :=
  mapGet s.orderBooks pair

def setRecentTrades (s : MemStorage) (pair : String) (data : RecentTrades) : MemStorage :=
  { s with recentTrades := mapSet s.recentTrades pair data }

def getRecentTrades (s : MemStorage) (pair : String) : Option RecentTrades :=
  mapGet s.recentTrades pair

def setMarketData (s : MemStorage) (data : List MarketData) : MemStorage :=
  { s with marketData := data }

def getMarketData (s : MemStorage) : List MarketData :=
  s.marketData

def getLastUpdated (s : MemStorage) : Option ℕ :=
  s.lastUpdated

def setLastUpdated (s : MemStorage) (date : ℕ) : MemStorage :=
  { s with lastUpdated := some date }

end MemStorage

/-! ## Upstream Client (server/services/kraken-api.ts, `KrakenApiService`)

The raw upstream payloads are passed in as arguments.  The fields of a
raw Kraken ticker entry that the code reads are `c[0]` (last trade
price), `o` (open), `v[1]`, `h[1]`, `l[1]` (24h volume / high / low),
`b[0]` (best bid) and `a[0]` (best ask); the embedding names exactly
those seven scalars, already parsed to rationals (`parseFloat`). -/

/-- One entry of the upstream `/public/Ticker` result object, restricted
to the fields the service reads. -/
structure RawTicker where
  c0 : ℚ
  o : ℚ
  v1 : ℚ
  h1 : ℚ
  l1 : ℚ
  b0 : ℚ
  a0 : ℚ
deriving DecidableEq

/-- One entry of the upstream `/public/Depth` result object:
`asks` and `bids` are arrays of `[price, volume, timestamp]` triples. -/
structure RawDepth where
  asks : List (ℚ × ℚ × ℚ)
  bids : List (ℚ × ℚ × ℚ)
deriving DecidableEq

namespace KrakenApiService

/-- JS object key lookup `result[key]` on a result object embedded as an
association list of its keys in `Object.keys` order. -/
def lookupKey {α : Type} : List (String × α) → String → Option α
  | [], _ => none
  | (k, v) :: rest, key => if k = key then some v else lookupKey rest key

/-- `makeRequest`: raise on non-2xx HTTP status, validate the envelope,
raise if the envelope carries a non-empty error list, otherwise return
`validatedData.result` (possibly `undefined`).  The HTTP status of the
response is passed in as `ok`/`status`/`statusText`. -/
def makeRequest {α : Type} (ok : Bool) (status : ℕ) (statusText : String)
    (env : KrakenEnvelope α) : Except String (Option α) :=
  if ok = false then
    .error ("HTTP " ++ toString status ++ ": " ++ statusText)
  else if env.error.length > 0 then
    .error ("Kraken API Error: " ++ String.intercalate ", " env.error)
  else
    .ok env.result

/-- `getPairDisplayName`: the static display-name table, defaulting to
the substring of the pair before the first `/`. -/
def getPairDisplayName (pair : String) : String :=
  if pair = "XBTUSD" then "Bitcoin"
  else if pair = "ETHUSD" then "Ethereum"
  else if pair = "ADAUSD" then "Cardano"
  else if pair = "DOTUSD" then "Polkadot"
  else if pair = "SOLUSD" then "Solana"
  else if pair = "MATICUSD" then "Polygon"
  else if pair = "LINKUSD" then "Chainlink"
  else if pair = "UNIUSD" then "Uniswap"
  else if pair = "BTC/USD" then "Bitcoin"
  else if pair = "ETH/USD" then "Ethereum"
  else if pair = "ADA/USD" then "Cardano"
  else if pair = "DOT/USD" then "Polkadot"
  else if pair = "SOL/USD" then "Solana"
  else if pair = "MATIC/USD" then "Polygon"
  else if pair = "LINK/USD" then "Chainlink"
  else if pair = "UNI/USD" then "Uniswap"
  else ((pair.splitOn "/").headD pair)

/-- The record constructed by `getTickerData` from one raw ticker entry. -/
def tickerFromRaw (pair : String) (data : RawTicker) : TickerData :=
  { pair := pair
    name := getPairDisplayName pair
    lastPrice := data.c0
    change24h := data.c0 - data.o
    changePercent24h := (data.c0 - data.o) / data.o * 100
    volume24h := data.v1
    high24h := data.h1
    low24h := data.l1
    bid := data.b0
    ask := data.a0
    spread := data.a0 - data.b0
    spreadPercent := (data.a0 - data.b0) / data.b0 * 100 }

/-- `getTickerData(pair)`: issue `/public/Ticker?pair=...` through
`makeRequest`, take the first key of the result object
(`Object.keys(result)[0]`) and normalize its entry.  A missing or empty
result object makes the field accesses throw (`Object.keys(undefined)`,
`result[undefined].c`), surfacing as an error. -/
def getTickerData (ok : Bool) (status : ℕ) (statusText : String)
    (env : KrakenEnvelope (List (String × RawTicker))) (pair : String) :
    Except String TickerData :=
  match makeRequest ok status statusText env with
  | .error e => .error e
  | .ok none => .error "TypeError: cannot read properties of undefined"
  | .ok (some result) =>
    match result with
    | [] => .error "TypeError: cannot read properties of undefined"
    | (_, data) :: _ => .ok (tickerFromRaw pair data)

/-- `asks.length > 0 ? asks[0].price : 0` — the best price of one side,
taken as zero when the side is empty. -/
def bestPrice : List OrderBookEntry → ℚ
  | [] => 0
  | e :: _ => e.price

/-- The order-book record constructed by `getOrderBook` from the raw
depth entry for the pair (`count` only bounds the upstream request). -/
def orderBookFromRaw (pair : String) (count : ℕ) (data : RawDepth) : OrderBook :=
  let asks := data.asks.map fun e => OrderBookEntry.mk e.1 e.2.1 e.2.2
  let bids := data.bids.map fun e => OrderBookEntry.mk e.1 e.2.1 e.2.2
  let bestAsk := bestPrice asks
  let bestBid := bestPrice bids
  let spread := bestAsk - bestBid
  let spreadPercent := if bestBid > 0 then spread / bestBid * 100 else 0
  { pair := pair
    asks := asks
    bids := bids
    spread := spread
    spreadPercent := spreadPercent }

/-- `getOrderBook(pair, count)`: issue `/public/Depth?pair=...&count=...`
through `makeRequest`, take the first key of the result object and
normalize its entry. -/
def getOrderBook (ok : Bool) (status : ℕ) (statusText : String)
    (env : KrakenEnvelope (List (String × RawDepth))) (pair : String) (count : ℕ) :
    Except String OrderBook :=
  match makeRequest ok status statusText env with
  | .error e => .error e
  | .ok none => .error "TypeError: cannot read properties of undefined"
  | .ok (some result) =>
    match result with
    | [] => .error "TypeError: cannot read properties of undefined"
    | (_, data) :: _ => .ok (orderBookFromRaw pair count data)

/-- One raw trade `[price, volume, time, side, ordertype, misc]`,
restricted to the four fields the service reads; `side` is the
single-character buy/sell marker. -/
structure RawTrade where
  price : ℚ
  volume : ℚ
  time : ℚ
  side : String
deriving DecidableEq

/-- The trade record constructed by `getRecentTrades` from one raw
trade: `side` is `buy` exactly when the marker is the character `b`. -/
def tradeFromRaw (t : RawTrade) : Trade :=
  { price := t.price
    volume := t.volume
    time := t.time
    side := if t.side = "b" then TradeSide.buy else TradeSide.sell }

/-- `getRecentTrades(pair, count)`: issue `/public/Trades?...` through
`makeRequest`, take the first key of the result object and map its
trades. -/
def getRecentTrades (ok : Bool) (status : ℕ) (statusText : String)
    (env : KrakenEnvelope (List (String × List RawTrade))) (pair : String) (count : ℕ) :
    Except String RecentTrades :=
  match makeRequest ok status statusText env with
  | .error e => .error e
  | .ok none => .error "TypeError: cannot read properties of undefined"
  | .ok (some result) =>
    match result with
    | [] => .error "TypeError: cannot read properties of undefined"
    | (_, trades) :: _ => .ok { pair := pair, trades := trades.map tradeFromRaw }

/-! ### Batch ticker resolution (`getMultipleTickers`) -/

/-- The static `krakenPairMap` table: canonical pair identifier to the
priority-ordered list of upstream keys to try. -/
def krakenPairMap (pair : String) : Option (List String) :=
  if pair = "XBTUSD" then some ["XXBTZUSD", "XBTUSD"]
  else if pair = "ETHUSD" then some ["XETHZUSD", "ETHUSD"]
  else if pair = "ADAUSD" then some ["ADAUSD"]
  else if pair = "DOTUSD" then some ["DOTUSD"]
  else if pair = "SOLUSD" then some ["SOLUSD"]
  else if pair = "MATICUSD" then some ["MATICUSD"]
  else if pair = "LINKUSD" then some ["LINKUSD"]
  else if pair = "UNIUSD" then some ["UNIUSD"]
  else none

/-- The alias-table phase: walk `krakenPairMap[pair] || [pair]` in order
and return the first key present in the result object. -/
def resolveAlias (result : List (String × RawTicker)) (pair : String) : Option String :=
  ((krakenPairMap pair).getD [pair]).find? fun key => (lookupKey result key).isSome

/-- `key.replace(/[XZ]/g, '')`: drop every `X` and `Z`. -/
def normalizeUpstreamKey (s : String) : String :=
  String.mk (s.data.filter fun c => c ≠ 'X' ∧ c ≠ 'Z')

/-- `pair.replace(/[XZ/]/g, '')`: drop every `X`, `Z` and `/`. -/
def normalizeRequestedPair (s : String) : String :=
  String.mk (s.data.filter fun c => c ≠ 'X' ∧ c ≠ 'Z' ∧ c ≠ '/')

/-- JS `s.includes(sub)`: `sub` occurs as a contiguous substring of `s`. -/
def charsContain (sub : List Char) : List Char → Bool
  | [] => sub.isEmpty
  | c :: rest => sub.isPrefixOf (c :: rest) || charsContain sub rest

/-- The fuzzy-fallback phase: the first result key whose normalized form
contains the normalized requested pair, or which contains the requested
pair verbatim. -/
def fuzzyFind (result : List (String × RawTicker)) (pair : String) : Option String :=
  (result.map Prod.fst).find? fun key =>
    charsContain (normalizeRequestedPair pair).data (normalizeUpstreamKey key).data
      || charsContain pair.data key.data

/-- The full key resolution of `getMultipleTickers`: the alias-table
phase first, the fuzzy fallback only when it found nothing
(`if (!pairKey) { pairKey = ... }`). -/
def resolvePairKey (result : List (String × RawTicker)) (pair : String) : Option String :=
  match resolveAlias result pair with
  | some key => some key
  | none => fuzzyFind result pair

/-- The record constructed by `getMultipleTickers` for one pair from its
resolved raw entry.  Unlike `tickerFromRaw` it carries no spread
fields. -/
def marketFromRaw (pair : String) (data : RawTicker) : MarketData :=
  { pair := pair
    name := getPairDisplayName pair
    lastPrice := data.c0
    change24h := data.c0 - data.o
    changePercent24h := (data.c0 - data.o) / data.o * 100
    volume24h := data.v1
    high24h := data.h1
    low24h := data.l1
    bid := data.b0
    ask := data.a0 }

/-- The body of `getMultipleTickers(pairs)` after the single upstream
`/public/Ticker?pair=p1,p2,...` call: `pairs.map(...)` resolves each
requested pair against the result object and builds its record, and a
pair that does not resolve throws, aborting the whole batch with
`No data found for pair ...`. -/
def getMultipleTickers (result : List (String × RawTicker)) :
    List String → Except String (List MarketData)
  | [] => .ok []
  | pair :: rest =>
    match resolvePairKey result pair with
    | none => .error ("No data found for pair " ++ pair)
    | some key =>
      match lookupKey result key with
      | none => .error ("No data found for pair " ++ pair)
      | some data =>
        match getMultipleTickers result rest with
        | .error e => .error e
        | .ok l => .ok (marketFromRaw pair data :: l)

end KrakenApiService

/-! ## Request Gateway and Fan-out Channel (server/routes.ts)

Each route handler is a state transition on the `MemStorage` snapshot
store.  The outcome of the upstream call a handler makes is passed in
as an `Except` argument; `new Date()` is passed in as `now`.  The
returned `Bool` is the reported outcome (`true` for a 2xx JSON reply,
`false` for the 500 error reply of the catch block). -/

/-- `POPULAR_PAIRS`: the configured pair universe. -/
def POPULAR_PAIRS : List String :=
  ["XBTUSD", "ETHUSD", "ADAUSD", "DOTUSD", "SOLUSD", "MATICUSD", "LINKUSD", "UNIUSD"]

/-- The payload of a WebSocket push message.  The initial subscription
push carries the awaited storage lookups, which may be `undefined`
(`none`); the periodic broadcast carries batch `MarketData` records. -/
inductive WsData where
  | tickerD (d : Option TickerData)
  | orderBookD (d : Option OrderBook)
  | tradesD (d : Option RecentTrades)
  | marketD (d : MarketData)
deriving DecidableEq

/-- A WebSocket message `{ type, pair, data }`. -/
structure WsMessage where
  type : String
  pair : String
  data : WsData
deriving DecidableEq

/-- `GET /api/ticker/:pair`: fetch, then `storage.setTickerData`; on a
thrown error reply 500 and leave the store untouched. -/
def tickerRoute (store : MemStorage) (pair : String)
    (fetch : Except String TickerData) : MemStorage × Bool :=
  match fetch with
  | .ok data => (store.setTickerData pair data, true)
  | .error _ => (store, false)

/-- `GET /api/orderbook/:pair`: fetch, then `storage.setOrderBook`. -/
def orderBookRoute (store : MemStorage) (pair : String)
    (fetch : Except String OrderBook) : MemStorage × Bool :=
  match fetch with
  | .ok data => (store.setOrderBook pair data, true)
  | .error _ => (store, false)

/-- `GET /api/trades/:pair`: fetch, then `storage.setRecentTrades`. -/
def tradesRoute (store : MemStorage) (pair : String)
    (fetch : Except String RecentTrades) : MemStorage × Bool :=
  match fetch with
  | .ok data => (store.setRecentTrades pair data, true)
  | .error _ => (store, false)

/-- `GET /api/market-data`: `getMultipleTickers(POPULAR_PAIRS)`, then
`setMarketData` and `setLastUpdated(new Date())`. -/
def marketDataRoute (store : MemStorage) (now : ℕ)
    (batch : Except String (List MarketData)) : MemStorage × Bool :=
  match batch with
  | .ok data => ((store.setMarketData data).setLastUpdated now, true)
  | .error _ => (store, false)

/-- The per-pair loop of `POST /api/refresh`: for each pair,
`Promise.all` of `getOrderBook(pair, 10)` and `getRecentTrades(pair, 50)`;
both writes happen only when both fetches succeed, and a per-pair
failure is caught and the loop continues with the next pair. -/
def refreshPairs
    (perPair : String → Except String OrderBook × Except String RecentTrades) :
    List String → MemStorage → MemStorage
  | [], s => s
  | pair :: rest, s =>
    match perPair pair with
    | (.ok ob, .ok tr) =>
      refreshPairs perPair rest ((s.setOrderBook pair ob).setRecentTrades pair tr)
    | _ => refreshPairs perPair rest s

/-- `POST /api/refresh`: the bulk ticker fetch first (`setMarketData` on
success, 500 on failure), then the caught per-pair order-book/trade
loop over `POPULAR_PAIRS`, then `setLastUpdated(new Date())` and a
success reply. -/
def refreshRoute (store : MemStorage) (now : ℕ)
    (batch : Except String (List MarketData))
    (perPair : String → Except String OrderBook × Except String RecentTrades) :
    MemStorage × Bool :=
  match batch with
  | .error _ => (store, false)
  | .ok marketData =>
    let s1 := store.setMarketData marketData
    let s2 := refreshPairs perPair POPULAR_PAIRS s1
    (s2.setLastUpdated now, true)

/-- The URL of the single upstream call of a batch ticker refresh. -/
def tickerBatchUrl (pairs : List String) : String :=
  "/public/Ticker?pair=" ++ String.intercalate "," pairs

/-- The `setInterval` broadcast cycle: if no client is connected, return
immediately; otherwise call `getMultipleTickers(POPULAR_PAIRS)`, store
the result with `setMarketData`, and broadcast one ticker message per
record to every client (an upstream failure is caught and logged).
Returns the new store, the list of upstream requests issued, and the
broadcast messages. -/
def broadcastCycle (clients : ℕ) (store : MemStorage)
    (batch : Except String (List MarketData)) :
    MemStorage × List String × List WsMessage :=
  if clients = 0 then (store, [], [])
  else
    match batch with
    | .ok marketData =>
      (store.setMarketData marketData,
       [tickerBatchUrl POPULAR_PAIRS],
       marketData.map fun t => { type := "ticker", pair := t.pair, data := WsData.marketD t })
    | .error _ => (store, [tickerBatchUrl POPULAR_PAIRS], [])

/-- The initial push of the subscription handler for one requested pair
(routes.ts, `wss.on('connection')` message handler).  The source reads
`storage.getTickerData(pair) || krakenApi.getTickerData(pair)` (and
likewise for the order book and the trades): the left operand is a
`Promise` object, and every JS object is truthy, so `||` always yields
the left operand and the fresh upstream fetch on the right is never
started.  Awaiting the storage promise yields the stored record or
`undefined` (`none`), which is what the three messages carry.  The
would-be results of the fresh fetches are passed in as arguments to
make that explicit. -/
def subscribeInitialFor (store : MemStorage)
    (freshTicker : Except String TickerData)
    (freshOrderBook : Except String OrderBook)
    (freshTrades : Except String RecentTrades)
    (pair : String) : List WsMessage :=
  let ticker := store.getTickerData pair
  let orderBook := store.getOrderBook pair
  let trades := store.getRecentTrades pair
  [{ type := "ticker", pair := pair, data := WsData.tickerD ticker },
   { type := "orderBook", pair := pair, data := WsData.orderBookD orderBook },
   { type := "trades", pair := pair, data := WsData.tradesD trades }]

/-! ## Auxiliary predicates and sample data -/

/-- A fallible fetch outcome that failed. -/
def fetchFailed {α : Type} : Except String α → Bool
  | .ok _ => false
  | .error _ => true

/-- A batch record agrees with the per-pair `getTickerData` computation:
it was built by `marketFromRaw` from some raw entry, and the spread and
percent spread that `tickerFromRaw` computes from that same raw entry
are exactly `ask - bid` and `(ask - bid) / bid * 100` of the batch
record. -/
def MatchesPerPairComputation (md : MarketData) : Prop :=
  ∃ raw : RawTicker,
    md = KrakenApiService.marketFromRaw md.pair raw
    ∧ (KrakenApiService.tickerFromRaw md.pair raw).spread = md.ask - md.bid
    ∧ (KrakenApiService.tickerFromRaw md.pair raw).spreadPercent
        = (md.ask - md.bid) / md.bid * 100

/-- A concrete raw ticker entry used in witnesses. -/
def rawSample : RawTicker :=
  { c0 := 3, o := 2, v1 := 10, h1 := 4, l1 := 1, b0 := 2, a0 := 3 }

/-- A concrete batch record used in witnesses. -/
def mdSample : MarketData := KrakenApiService.marketFromRaw "ADAUSD" rawSample

/-- A concrete normalized ticker record used in witnesses. -/
def tickerSample : TickerData := KrakenApiService.tickerFromRaw "XBTUSD" rawSample

/-- A concrete order-book record used in witnesses. -/
def obSample : OrderBook :=
  KrakenApiService.orderBookFromRaw "XBTUSD" 10 { asks := [(3, 1, 0)], bids := [(2, 1, 0)] }

/-- A concrete trade-history record used in witnesses. -/
def trSample : RecentTrades :=
  { pair := "XBTUSD", trades := [{ price := 3, volume := 1, time := 0, side := TradeSide.buy }] }

/-- A raw depth payload whose asks side is empty while a bid at price
100 is present. -/
def depthEmptyAsks : RawDepth := { asks := [], bids := [(100, 1, 0)] }

/-- A store whose last-updated timestamp is 5. -/
def storeAt5 : MemStorage := { MemStorage.init with lastUpdated := some 5 }

/-- The upstream envelope `{error: ["Invalid arguments"], result: null}`. -/
def envInvalid : KrakenEnvelope (List (String × RawTicker)) :=
  { error := ["Invalid arguments"], result := none }

/-- A per-pair fetch outcome where every pair except ETHUSD fails. -/
def perPairFailExceptETH : String → Except String OrderBook × Except String RecentTrades :=
  fun p => if p = "ETHUSD" then (.ok obSample, .ok trSample) else (.error "boom", .error "boom")

/-- A per-pair fetch outcome where every fetch fails. -/
def perPairAllFail : String → Except String OrderBook × Except String RecentTrades :=
  fun _ => (.error "offline", .error "offline")

/-- A store already holding an order book and trades for XBTUSD. -/
def storeWithBooks : MemStorage :=
  (MemStorage.init.setOrderBook "XBTUSD" obSample).setRecentTrades "XBTUSD" trSample

/-! ## Helper lemmas -/

theorem mapGet_mapSet_self {α : Type} (m : List (String × α)) (k : String) (v : α) :
    mapGet (mapSet m k v) k = some v := by
  induction m with
  | nil => simp [mapSet, mapGet]
  | cons hd tl ih =>
    obtain ⟨k', v'⟩ := hd
    by_cases h : k' = k
    · simp [mapSet, mapGet, h]
    · simp [mapSet, mapGet, h, ih]

theorem mapGet_mapSet_ne {α : Type} (m : List (String × α)) (k q : String) (v : α)
    (h : q ≠ k) : mapGet (mapSet m k v) q = mapGet m q := by
  induction m with
  | nil => simp [mapSet, mapGet, Ne.symm h]
  | cons hd tl ih =>
    obtain ⟨k', v'⟩ := hd
    by_cases hk : k' = k
    · subst hk
      simp [mapSet, mapGet, Ne.symm h]
    · by_cases hq : k' = q
      · simp [mapSet, mapGet, hk, hq, h]
      · simp [mapSet, mapGet, hk, hq, ih]

namespace MemStorage

theorem getOrderBook_setOrderBook_self (s : MemStorage) (pair : String) (ob : OrderBook) :
    (s.setOrderBook pair ob).getOrderBook pair = some ob :=
  mapGet_mapSet_self s.orderBooks pair ob

theorem getOrderBook_setOrderBook_ne (s : MemStorage) (pair q : String) (ob : OrderBook)
    (h : q ≠ pair) : (s.setOrderBook pair ob).getOrderBook q = s.getOrderBook q :=
  mapGet_mapSet_ne s.orderBooks pair q ob h

theorem getRecentTrades_setRecentTrades_self (s : MemStorage) (pair : String)
    (tr : RecentTrades) : (s.setRecentTrades pair tr).getRecentTrades pair = some tr :=
  mapGet_mapSet_self s.recentTrades pair tr

theorem getRecentTrades_setRecentTrades_ne (s : MemStorage) (pair q : String)
    (tr : RecentTrades) (h : q ≠ pair) :
    (s.setRecentTrades pair tr).getRecentTrades q = s.getRecentTrades q :=
  mapGet_mapSet_ne s.recentTrades pair q tr h

end MemStorage

theorem refreshPairs_not_mem
    (perPair : String → Except String OrderBook × Except String RecentTrades)
    (l : List String) (s : MemStorage) (pair : String) (h : pair ∉ l) :
    (refreshPairs perPair l s).getOrderBook pair = s.getOrderBook pair
    ∧ (refreshPairs perPair l s).getRecentTrades pair = s.getRecentTrades pair := by
  induction l generalizing s with
  | nil => exact ⟨rfl, rfl⟩
  | cons q rest ih =>
    have hq : pair ≠ q := fun hc => h (hc ▸ List.mem_cons_self q rest)
    have hrest : pair ∉ rest := fun hc => h (List.mem_cons_of_mem q hc)
    rcases hp : perPair q with ⟨o, t⟩
    cases o with
    | error e =>
      simpa [refreshPairs, hp] using ih s hrest
    | ok ob =>
      cases t with
      | error e =>
        simpa [refreshPairs, hp] using ih s hrest
      | ok tr =>
        have := ih ((s.setOrderBook q ob).setRecentTrades q tr) hrest
        simp only [refreshPairs, hp]
        refine ⟨?_, ?_⟩
        · rw [this.1]
          exact MemStorage.getOrderBook_setOrderBook_ne s q pair ob hq
        · rw [this.2]
          exact MemStorage.getRecentTrades_setRecentTrades_ne s q pair tr hq

theorem refreshPairs_mem
    (perPair : String → Except String OrderBook × Except String RecentTrades)
    (l : List String) (s : MemStorage) (pair : String) (ob : OrderBook)
    (tr : RecentTrades) (hnd : l.Nodup) (hmem : pair ∈ l)
    (hp : perPair pair = (.ok ob, .ok tr)) :
    (refreshPairs perPair l s).getOrderBook pair = some ob
    ∧ (refreshPairs perPair l s).getRecentTrades pair = some tr := by
  induction l generalizing s with
  | nil => cases hmem
  | cons q rest ih =>
    rcases List.nodup_cons.mp hnd with ⟨hqnot, hndr⟩
    rcases List.mem_cons.mp hmem with heq | hrest
    · subst heq
      have hnot := refreshPairs_not_mem perPair rest
        ((s.setOrderBook pair ob).setRecentTrades pair tr) pair hqnot
      simp only [refreshPairs, hp]
      refine ⟨?_, ?_⟩
      · rw [hnot.1]
        exact MemStorage.getOrderBook_setOrderBook_self s pair ob
      · rw [hnot.2]
        exact MemStorage.getRecentTrades_setRecentTrades_self s pair tr
    · rcases hpq : perPair q with ⟨o, t⟩
      cases o with
      | error e => simpa [refreshPairs, hpq] using ih s hndr hrest
      | ok ob' =>
        cases t with
        | error e => simpa [refreshPairs, hpq] using ih s hndr hrest
        | ok tr' =>
          simpa [refreshPairs, hpq] using
            ih ((s.setOrderBook q ob').setRecentTrades q tr') hndr hrest

theorem refreshPairs_all_fail
    (perPair : String → Except String OrderBook × Except String RecentTrades)
    (l : List String) (s : MemStorage)
    (h : ∀ p ∈ l, fetchFailed (perPair p).1 = true ∨ fetchFailed (perPair p).2 = true) :
    refreshPairs perPair l s = s := by
  induction l with
  | nil => rfl
  | cons q rest ih =>
    have hq := h q (List.mem_cons_self q rest)
    have hrest : ∀ p ∈ rest, fetchFailed (perPair p).1 = true ∨ fetchFailed (perPair p).2 = true :=
      fun p hp => h p (List.mem_cons_of_mem q hp)
    rcases hpq : perPair q with ⟨o, t⟩
    rw [hpq] at hq
    cases o with
    | error e => simpa [refreshPairs, hpq] using ih hrest
    | ok ob =>
      cases t with
      | error e => simpa [refreshPairs, hpq] using ih hrest
      | ok tr => simp [fetchFailed] at hq

/-! ## Claims -/

/-- C1, counterexample: the claim as stated is false on the code — the
records a successful `getMultipleTickers` returns conform to
`marketDataSchema`, which has no `spread` or `spreadPercent` field at
all (both fields exist only in `tickerDataSchema`), so no returned
record has `spread = ask - bid`. -/
theorem C1_counterexample :
    "spread" ∉ marketDataSchemaFields ∧ "spreadPercent" ∉ marketDataSchemaFields
    ∧ "spread" ∈ tickerDataSchemaFields ∧ "spreadPercent" ∈ tickerDataSchemaFields := by
  decide

/-- C1, amended: when `getMultipleTickers` succeeds it returns exactly
one record per requested pair, in order; each record is built by the
batch normalization from some raw upstream entry, and the spread fields
that the per-pair `getTickerData` computes from that same raw entry are
exactly `ask - bid` and `(ask - bid) / bid * 100` of the batch record —
but the batch record itself carries no spread fields. -/
theorem C1_batch_matches_per_pair
    (result : List (String × RawTicker)) (pairs : List String) (l : List MarketData)
    (h : KrakenApiService.getMultipleTickers result pairs = .ok l) :
    l.map MarketData.pair = pairs
    ∧ ∀ md ∈ l, 0 < md.bid → MatchesPerPairComputation md := by
  induction pairs generalizing l with
  | nil =>
    simp [KrakenApiService.getMultipleTickers] at h
    subst h
    simp
  | cons pair rest ih =>
    cases hres : KrakenApiService.resolvePairKey result pair with
    | none => simp [KrakenApiService.getMultipleTickers, hres] at h
    | some key =>
      cases hlk : KrakenApiService.lookupKey result key with
      | none => simp [KrakenApiService.getMultipleTickers, hres, hlk] at h
      | some data =>
        cases hrec : KrakenApiService.getMultipleTickers result rest with
        | error e => simp [KrakenApiService.getMultipleTickers, hres, hlk, hrec] at h
        | ok l2 =>
          have hl : l = KrakenApiService.marketFromRaw pair data :: l2 := by
            simp [KrakenApiService.getMultipleTickers, hres, hlk, hrec] at h
            exact h.symm
          subst hl
          obtain ⟨ih1, ih2⟩ := ih l2 hrec
          constructor
          · simp [KrakenApiService.marketFromRaw, ih1]
          · intro md hmd hbid
            rcases List.mem_cons.mp hmd with heq | hmem
            · subst heq
              refine ⟨data, ?_, ?_, ?_⟩
              · simp [KrakenApiService.marketFromRaw]
              · simp [KrakenApiService.tickerFromRaw, KrakenApiService.marketFromRaw]
              · simp [KrakenApiService.tickerFromRaw, KrakenApiService.marketFromRaw]
            · exact ih2 md hmem hbid

/-- C1, witness: the amended theorem applied to the one-pair batch
request for ADAUSD against a response keyed ADAUSD. -/
theorem C1_batch_matches_per_pair_witness :
    [mdSample].map MarketData.pair = ["ADAUSD"] ∧ MatchesPerPairComputation mdSample := by
  have h := C1_batch_matches_per_pair [("ADAUSD", rawSample)] ["ADAUSD"] [mdSample] rfl
  exact ⟨h.1, h.2 mdSample (List.mem_singleton.mpr rfl) (by decide)⟩

/-- C2: evaluation at the failing input.  On a fresh store with no
entry for XBTUSD, the initial subscription push for XBTUSD carries
`undefined` (`none`) for all three kinds even though fresh upstream
fetches returning concrete records are available: the source writes
`storage.getTickerData(pair) || krakenApi.getTickerData(pair)`, whose
left operand is a Promise object and hence always truthy, so the
intended fallback fetch is dead code. -/
theorem C2_code_eval :
    MemStorage.getTickerData MemStorage.init "XBTUSD" = none
    ∧ subscribeInitialFor MemStorage.init (.ok tickerSample) (.ok obSample) (.ok trSample)
        "XBTUSD"
      = [{ type := "ticker", pair := "XBTUSD", data := WsData.tickerD none },
         { type := "orderBook", pair := "XBTUSD", data := WsData.orderBookD none },
         { type := "trades", pair := "XBTUSD", data := WsData.tradesD none }] :=
  ⟨rfl, rfl⟩

/-- C3, counterexample: a depth response with an empty asks side and a
bid at price 100 yields an order book whose spread is -100 and whose
percent spread is -100, not 0 and 0 as claimed. -/
theorem C3_counterexample :
    KrakenApiService.getOrderBook true 200 "OK"
        { error := [], result := some [("XXBTZUSD", depthEmptyAsks)] } "XBTUSD" 5
      = .ok (KrakenApiService.orderBookFromRaw "XBTUSD" 5 depthEmptyAsks)
    ∧ (KrakenApiService.orderBookFromRaw "XBTUSD" 5 depthEmptyAsks).spread = -100
    ∧ (KrakenApiService.orderBookFromRaw "XBTUSD" 5 depthEmptyAsks).spreadPercent = -100
    ∧ ¬ ((KrakenApiService.orderBookFromRaw "XBTUSD" 5 depthEmptyAsks).spread = 0
         ∧ (KrakenApiService.orderBookFromRaw "XBTUSD" 5 depthEmptyAsks).spreadPercent = 0) := by
  refine ⟨rfl, ?_, ?_, ?_⟩ <;>
    norm_num [KrakenApiService.orderBookFromRaw, KrakenApiService.bestPrice, depthEmptyAsks]

/-- C3, amended: only when both side arrays of the depth response are
empty does `getOrderBook` return spread = 0 and spreadPercent = 0.  In
general the missing side's best price is taken as zero — the spread is
always best ask minus best bid with an empty side contributing 0, and
empty bids force spreadPercent = 0 (while empty asks with a positive
best bid give a negative spread, as the counterexample shows). -/
theorem C3_empty_sides (pair : String) (count : ℕ) (d : RawDepth) :
    ((KrakenApiService.orderBookFromRaw pair count { asks := [], bids := [] }).spread = 0
      ∧ (KrakenApiService.orderBookFromRaw pair count { asks := [], bids := [] }).spreadPercent
          = 0)
    ∧ (KrakenApiService.orderBookFromRaw pair count d).spread
        = KrakenApiService.bestPrice ((KrakenApiService.orderBookFromRaw pair count d).asks)
          - KrakenApiService.bestPrice ((KrakenApiService.orderBookFromRaw pair count d).bids)
    ∧ (KrakenApiService.orderBookFromRaw pair count { asks := d.asks, bids := [] }).spreadPercent
        = 0 := by
  refine ⟨⟨?_, ?_⟩, rfl, ?_⟩
  · simp [KrakenApiService.orderBookFromRaw, KrakenApiService.bestPrice]
  · simp [KrakenApiService.orderBookFromRaw, KrakenApiService.bestPrice]
  · simp [KrakenApiService.orderBookFromRaw, KrakenApiService.bestPrice]

/-- C4, counterexample: the timer-driven broadcast cycle performs a
successful bulk-ticker fetch-and-store step (the stored market-data
list becomes the fetched one) and yet leaves the last-updated scalar at
its old value 5 — the cycle never writes it, so after the cycle the
scalar does not hold the timestamp of the most recent successful bulk
refresh. -/
theorem C4_counterexample :
    (broadcastCycle 1 storeAt5 (.ok [mdSample])).1.marketData = [mdSample]
    ∧ (broadcastCycle 1 storeAt5 (.ok [mdSample])).1.lastUpdated = some 5 :=
  ⟨rfl, rfl⟩

/-- C4, amended: the on-demand market-data read and the force-refresh
operation set the last-updated scalar to the current time upon a
successful bulk step, but the timer-driven broadcast cycle always
leaves it unchanged. -/
theorem C4_lastUpdated_paths (store : MemStorage) (now : ℕ) (md : List MarketData)
    (perPair : String → Except String OrderBook × Except String RecentTrades)
    (clients : ℕ) (batch : Except String (List MarketData)) :
    (marketDataRoute store now (.ok md)).1.lastUpdated = some now
    ∧ (refreshRoute store now (.ok md) perPair).1.lastUpdated = some now
    ∧ (broadcastCycle clients store batch).1.lastUpdated = store.lastUpdated := by
  refine ⟨rfl, rfl, ?_⟩
  unfold broadcastCycle
  by_cases h : clients = 0
  · simp [h]
  · cases batch <;> simp [h, MemStorage.setMarketData]

/-- C5: an upstream envelope with a non-empty error list makes
`makeRequest` fail (for any HTTP status), hence the per-pair ticker
fetch fails, and the `GET /api/ticker` handler replies with an error
and leaves the snapshot store completely unchanged — no write of any
kind occurs. -/
theorem C5_envelope_error_rejected (ok : Bool) (status : ℕ) (statusText : String)
    (env : KrakenEnvelope (List (String × RawTicker)))
    (h : env.error ≠ []) (store : MemStorage) (pair : String) :
    fetchFailed (KrakenApiService.makeRequest ok status statusText env) = true
    ∧ fetchFailed (KrakenApiService.getTickerData ok status statusText env pair) = true
    ∧ tickerRoute store pair (KrakenApiService.getTickerData ok status statusText env pair)
        = (store, false) := by
  have hm : ∃ e, KrakenApiService.makeRequest ok status statusText env = .error e := by
    cases ok with
    | false => exact ⟨_, rfl⟩
    | true =>
      refine ⟨"Kraken API Error: " ++ String.intercalate ", " env.error, ?_⟩
      simp only [KrakenApiService.makeRequest]
      rw [if_neg (by simp), if_pos (List.length_pos.mpr h)]
  obtain ⟨e, he⟩ := hm
  refine ⟨?_, ?_, ?_⟩ <;>
    simp [fetchFailed, he, KrakenApiService.getTickerData, tickerRoute]

/-- C5, witness: the theorem at the envelope
`{error: ["Invalid arguments"], result: null}` with HTTP status 200. -/
theorem C5_envelope_error_rejected_witness :
    fetchFailed (KrakenApiService.makeRequest true 200 "OK" envInvalid) = true
    ∧ fetchFailed (KrakenApiService.getTickerData true 200 "OK" envInvalid "XBTUSD") = true
    ∧ tickerRoute MemStorage.init "XBTUSD"
        (KrakenApiService.getTickerData true 200 "OK" envInvalid "XBTUSD")
      = (MemStorage.init, false) :=
  C5_envelope_error_rejected true 200 "OK" envInvalid (by decide) MemStorage.init "XBTUSD"

/-- C6: in the force-refresh handler, a failed bulk ticker fetch aborts
the whole cycle and is reported as a failed operation with the store
untouched; whereas when the bulk fetch succeeds the handler reports
success, and every pair of the universe whose own order-book and trades
fetches succeed has its records written — independently of failures of
any other pair. -/
theorem C6_refresh_error_isolation (store : MemStorage) (now : ℕ) (md : List MarketData)
    (perPair : String → Except String OrderBook × Except String RecentTrades)
    (e : String) :
    refreshRoute store now (.error e) perPair = (store, false)
    ∧ (refreshRoute store now (.ok md) perPair).2 = true
    ∧ ∀ pair ob tr, pair ∈ POPULAR_PAIRS → perPair pair = (.ok ob, .ok tr) →
        (refreshRoute store now (.ok md) perPair).1.getOrderBook pair = some ob
        ∧ (refreshRoute store now (.ok md) perPair).1.getRecentTrades pair = some tr := by
  refine ⟨rfl, rfl, ?_⟩
  intro pair ob tr hmem hp
  have hnd : POPULAR_PAIRS.Nodup := by decide
  have h := refreshPairs_mem perPair POPULAR_PAIRS (store.setMarketData md) pair ob tr
    hnd hmem hp
  exact ⟨h.1, h.2⟩

/-- C6, witness: with the bulk fetch failing the refresh reports
failure on the unchanged store; with the bulk fetch succeeding and
every pair except ETHUSD failing (XBTUSD, which precedes ETHUSD, among
them), the ETHUSD order book and trades are still written. -/
theorem C6_refresh_error_isolation_witness :
    refreshRoute MemStorage.init 7 (.error "fail") perPairFailExceptETH
      = (MemStorage.init, false)
    ∧ (refreshRoute MemStorage.init 7 (.ok [mdSample]) perPairFailExceptETH).1.getOrderBook
        "ETHUSD" = some obSample
    ∧ (refreshRoute MemStorage.init 7 (.ok [mdSample]) perPairFailExceptETH).1.getRecentTrades
        "ETHUSD" = some trSample := by
  have h := C6_refresh_error_isolation MemStorage.init 7 [mdSample] perPairFailExceptETH "fail"
  have h3 := h.2.2 "ETHUSD" obSample trSample (by decide) rfl
  exact ⟨h.1, h3.1, h3.2⟩

/-- C7: a requested pair whose own identifier is a key of the upstream
response (ADAUSD) is resolved by the alias-table phase directly to that
key, and a requested pair whose alias is a key (XXBTZUSD for XBTUSD) is
resolved by the alias-table phase to the alias; since `resolvePairKey`
consults the fuzzy substring fallback only when the alias-table phase
found nothing, the fallback is not the resolver used in either case. -/
theorem C7_alias_resolution (result : List (String × RawTicker)) (raw : RawTicker) :
    (KrakenApiService.lookupKey result "ADAUSD" = some raw →
       KrakenApiService.resolveAlias result "ADAUSD" = some "ADAUSD"
       ∧ KrakenApiService.resolvePairKey result "ADAUSD" = some "ADAUSD")
    ∧ (KrakenApiService.lookupKey result "XXBTZUSD" = some raw →
       KrakenApiService.resolveAlias result "XBTUSD" = some "XXBTZUSD"
       ∧ KrakenApiService.resolvePairKey result "XBTUSD" = some "XXBTZUSD") := by
  constructor
  · intro h
    have h1 : KrakenApiService.resolveAlias result "ADAUSD" = some "ADAUSD" := by
      simp [KrakenApiService.resolveAlias, KrakenApiService.krakenPairMap, List.find?, h]
    exact ⟨h1, by simp [KrakenApiService.resolvePairKey, h1]⟩
  · intro h
    have h1 : KrakenApiService.resolveAlias result "XBTUSD" = some "XXBTZUSD" := by
      simp [KrakenApiService.resolveAlias, KrakenApiService.krakenPairMap, List.find?, h]
    exact ⟨h1, by simp [KrakenApiService.resolvePairKey, h1]⟩

/-- C7, witness: the theorem at a one-key response keyed ADAUSD for the
request ADAUSD, and at a one-key response keyed XXBTZUSD for the
request XBTUSD. -/
theorem C7_alias_resolution_witness :
    KrakenApiService.resolvePairKey [("ADAUSD", rawSample)] "ADAUSD" = some "ADAUSD"
    ∧ KrakenApiService.resolvePairKey [("XXBTZUSD", rawSample)] "XBTUSD" = some "XXBTZUSD" :=
  ⟨((C7_alias_resolution [("ADAUSD", rawSample)] rawSample).1 rfl).2,
   ((C7_alias_resolution [("XXBTZUSD", rawSample)] rawSample).2 rfl).2⟩

/-- C8: when the broadcast timer fires with zero open connections, the
cycle returns immediately: no upstream request is issued, the store is
unchanged, and nothing is broadcast. -/
theorem C8_skip_if_idle (clients : ℕ) (store : MemStorage)
    (batch : Except String (List MarketData)) (h : clients = 0) :
    broadcastCycle clients store batch = (store, [], []) := by
  subst h
  rfl

/-- C8, witness: the theorem at zero clients, the fresh store and a
successful would-be batch. -/
theorem C8_skip_if_idle_witness :
    broadcastCycle 0 MemStorage.init (.ok [mdSample]) = (MemStorage.init, [], []) :=
  C8_skip_if_idle 0 MemStorage.init (.ok [mdSample]) rfl

/-- C9: for each of the three kinds, a put followed by a get on the
same pair returns exactly the record written, and a second put on the
same pair overwrites wholesale — the subsequent get returns exactly the
second record, for arbitrary prior store contents. -/
theorem C9_put_get_overwrite (s : MemStorage) (pair : String) (t1 t2 : TickerData)
    (o1 o2 : OrderBook) (r1 r2 : RecentTrades) :
    (s.setTickerData pair t1).getTickerData pair = some t1
    ∧ ((s.setTickerData pair t1).setTickerData pair t2).getTickerData pair = some t2
    ∧ (s.setOrderBook pair o1).getOrderBook pair = some o1
    ∧ ((s.setOrderBook pair o1).setOrderBook pair o2).getOrderBook pair = some o2
    ∧ (s.setRecentTrades pair r1).getRecentTrades pair = some r1
    ∧ ((s.setRecentTrades pair r1).setRecentTrades pair r2).getRecentTrades pair = some r2 :=
  ⟨mapGet_mapSet_self s.tickerData pair t1,
   mapGet_mapSet_self (mapSet s.tickerData pair t1) pair t2,
   mapGet_mapSet_self s.orderBooks pair o1,
   mapGet_mapSet_self (mapSet s.orderBooks pair o1) pair o2,
   mapGet_mapSet_self s.recentTrades pair r1,
   mapGet_mapSet_self (mapSet s.recentTrades pair r1) pair r2⟩

/-- C10: when the bulk ticker fetch of the force-refresh succeeds and
every per-pair order-book and trades fetch fails, the handler still
reports success and the resulting store is exactly the input store with
the market-data list replaced and the last-updated scalar set to the
current time — in particular the previously stored order books and
trades are left in place, stale, not cleared. -/
theorem C10_refresh_perpair_all_fail (store : MemStorage) (now : ℕ)
    (md : List MarketData)
    (perPair : String → Except String OrderBook × Except String RecentTrades)
    (h : ∀ p ∈ POPULAR_PAIRS,
      fetchFailed (perPair p).1 = true ∧ fetchFailed (perPair p).2 = true) :
    refreshRoute store now (.ok md) perPair
      = ((store.setMarketData md).setLastUpdated now, true) := by
  have hall : ∀ p ∈ POPULAR_PAIRS,
      fetchFailed (perPair p).1 = true ∨ fetchFailed (perPair p).2 = true :=
    fun p hp => Or.inl (h p hp).1
  show ((refreshPairs perPair POPULAR_PAIRS (store.setMarketData md)).setLastUpdated now, true)
    = ((store.setMarketData md).setLastUpdated now, true)
  rw [refreshPairs_all_fail perPair POPULAR_PAIRS (store.setMarketData md) hall]

/-- C10, witness: the theorem at a store already holding an XBTUSD
order book and trades, with every per-pair fetch failing. -/
theorem C10_refresh_perpair_all_fail_witness :
    refreshRoute storeWithBooks 9 (.ok [mdSample]) perPairAllFail
      = ((storeWithBooks.setMarketData [mdSample]).setLastUpdated 9, true) :=
  C10_refresh_perpair_all_fail storeWithBooks 9 [mdSample] perPairAllFail
    (fun p _ => ⟨rfl, rfl⟩)

end KrakenStreamer
